import Mathlib

/-!
Verification of the sisl repository build configuration, packaging
metadata, minimizer configuration and compiled-kernel architecture.

The development embeds, as Lean data and functions:

* the CMake build configuration for the Cython extension libraries
  (the physics kernel directory and the package-root directory);
* the `pyproject.toml` packaging metadata (dependency constraints,
  optional-dependency groups, the pylint extension-package allow-list,
  and the tox test-environment variables);
* the shipped minimizer configuration `optimize.yaml` (the optimization
  variables with their initial value, bounds and step size);
* the compiled numerical kernels themselves.  The kernel sources
  (`_matrix_k.pyx` and friends) are not part of the inspected tree, so
  they are modelled from the specification: a compressed-sparse-row-like
  storage whose rows are accumulated with complex lattice-phase weights,
  wrapped in a validate-then-compute invocation discipline with no
  persistent state.
-/

/-- One `add_cython_library` + `install` stanza of the CMake build
configuration: the Cython source file, the library name, the build
output name, and the install destination (as path components, rooted at
the project name `sisl` from `pyproject.toml`). -/
structure CythonBuild where
  sourceFile : String
  library : String
  output : String
  destination : List String
deriving DecidableEq, Repr

/-- The project name, `[project] name = "sisl"` in `pyproject.toml`;
CMake installs destinations relative to `SKBUILD_PROJECT_NAME`. -/
def SKBUILD_PROJECT_NAME : String := "sisl"

/-- The nine Cython sources of the physics directory
`foreach(source ...)` loop. -/
def physicsKernelSources : List String :=
  ["_bloch", "_phase",
   "_matrix_utils",
   "_matrix_k", "_matrix_dk", "_matrix_ddk",
   "_matrix_phase", "_matrix_phase_sc", "_matrix_phase3"]

/-- All `add_cython_library` stanzas of the two CMake fragments: the
physics loop (installed to `${SKBUILD_PROJECT_NAME}/physics`), the
package-root loop over `_indices` and `_math_small`, and the pure-Python
compiled loop over `_sparse_grid_ops` (both installed to
`${SKBUILD_PROJECT_NAME}`). -/
def cythonBuilds : List CythonBuild :=
  physicsKernelSources.map
    (fun s => ⟨s ++ ".pyx", s, s ++ "_C", [SKBUILD_PROJECT_NAME, "physics"]⟩)
  ++ ["_indices", "_math_small"].map
    (fun s => ⟨s ++ ".pyx", s, s ++ "_C", [SKBUILD_PROJECT_NAME]⟩)
  ++ ["_sparse_grid_ops"].map
    (fun s => ⟨s ++ ".py", s, s ++ "_C", [SKBUILD_PROJECT_NAME]⟩)

/-- The dotted import path of an installed extension module, as path
components: install destination followed by the library name. -/
def CythonBuild.modulePath (b : CythonBuild) : List String :=
  b.destination ++ [b.library]

/-- The dotted import paths of all extension modules the build
configuration installs. -/
def builtModulePaths : List (List String) :=
  cythonBuilds.map CythonBuild.modulePath

/-- The `add_subdirectory` calls of the package-level CMake fragment. -/
def cmakeSubdirectories : List String :=
  ["_core", "io", "physics", "geom"]

/-- The `[project.optional-dependencies]` table of `pyproject.toml`:
group name paired with its package requirements (requirement strings
kept verbatim, with spacing normalised). -/
def optionalDependencyGroups : List (String × List String) :=
  [("analysis", ["netCDF4", "tqdm>=4.36.0"]),
   ("viz", ["nodify", "netCDF4", "dill >= 0.3.2", "pathos", "scikit-image",
            "plotly", "matplotlib", "ase"]),
   ("viz-plotly", ["nodify", "netCDF4", "dill >= 0.3.2", "pathos",
                   "scikit-image", "plotly"]),
   ("viz-matplotlib", ["nodify", "netCDF4", "dill >= 0.3.2", "pathos",
                       "scikit-image", "matplotlib"]),
   ("viz-blender", ["nodify", "netCDF4", "dill >= 0.3.2", "pathos",
                    "scikit-image"]),
   ("viz-ase", ["netCDF4", "dill >= 0.3.2", "pathos", "scikit-image", "ase"]),
   ("test", ["pytest>=7", "coverage[toml]", "pytest-cov", "pytest-env",
             "pytest-faulthandler"]),
   ("docs", ["nbsphinx", "sphinx-rtd-theme", "sphinx-design", "sphinx-gallery",
             "sphinx-copybutton", "sphinx-togglebutton", "sphinx-inline-tabs",
             "sphinxcontrib-bibtex", "importlib-metadata", "ipykernel",
             "ipywidgets", "jupyterlab-widgets", "kaleido", "pytz", "networkx",
             "pyvis", "pybtex", "pandoc"])]

/-- The `[tool.pylint.master] extension-pkg-allow-list` of
`pyproject.toml`, each dotted module name split into its components
(the last two entries are the external packages `numpy` and `scipy`). -/
def extensionPkgAllowList : List (List String) :=
  [["sisl", "_math_small"],
   ["sisl", "_indices"],
   ["sisl", "_core", "_lattice"],
   ["sisl", "io", "siesta", "_siesta"],
   ["sisl", "physics", "_bloch"],
   ["sisl", "physics", "_matrix_k"],
   ["sisl", "physics", "_matrix_dk"],
   ["sisl", "physics", "_matrix_ddk"],
   ["numpy"],
   ["scipy"]]

/-- The parent package of a dotted module path: all components but the
last. -/
def moduleParent (m : List String) : List String := m.dropLast

/-- The `setenv` block of the tox `[testenv]` section in
`pyproject.toml`. -/
def toxTestEnv : List (String × String) :=
  [("SISL_NUM_PROCS", "1"), ("SISL_VIZ_NUM_PROCS", "1")]

/-- A Python package version, restricted to the shapes the two numpy
requirements of `pyproject.toml` use: a three-component numbered release
(PEP 440 pads missing components with zeros, so `1.20` is the same
version as `1.20.0`) together with an optional release-candidate number
(`2.0.0rc1` has `rc = some 1`; a final release has `rc = none`). -/
structure PyVersion where
  major : ℕ
  minor : ℕ
  micro : ℕ
  rc : Option ℕ
deriving DecidableEq, Repr

/-- PEP 440 orders a release candidate strictly before the final release
of the same numbered version; rank 0 for a candidate, 1 for final. -/
def PyVersion.rank (v : PyVersion) : ℕ :=
  match v.rc with
  | none => 1
  | some _ => 0

/-- The release-candidate number, 0 for a final release. -/
def PyVersion.rcNum (v : PyVersion) : ℕ := v.rc.getD 0

/-- PEP 440 ordering on the modelled version shape: lexicographic on the
numbered release, then candidate-before-final, then candidate number. -/
def verLe (a b : PyVersion) : Prop :=
  a.major < b.major ∨ (a.major = b.major ∧
    (a.minor < b.minor ∨ (a.minor = b.minor ∧
      (a.micro < b.micro ∨ (a.micro = b.micro ∧
        (a.rank < b.rank ∨ (a.rank = b.rank ∧ a.rcNum ≤ b.rcNum)))))))

instance (a b : PyVersion) : Decidable (verLe a b) := by
  unfold verLe; infer_instance

/-- The numpy constraint of `[build-system] requires`:
`numpy>=2.0.0rc1`. -/
def numpyBuildMinimum : PyVersion := ⟨2, 0, 0, some 1⟩

/-- The numpy constraint of `[project] dependencies`: `numpy>=1.20`. -/
def numpyRuntimeMinimum : PyVersion := ⟨1, 20, 0, none⟩

/-- A version `v` satisfies the build-time numpy requirement when
`2.0.0rc1 <= v`. -/
def satisfiesBuildNumpy (v : PyVersion) : Prop := verLe numpyBuildMinimum v

/-- A version `v` satisfies the run-time numpy requirement when
`1.20 <= v`. -/
def satisfiesRuntimeNumpy (v : PyVersion) : Prop := verLe numpyRuntimeMinimum v

/-- An optimization variable of the shipped minimizer configuration
`optimize.yaml`: a value declared as
`{initial: ..., bounds: [lo, hi], delta: ...}`.  The `name` records the
YAML path of the declaration. -/
structure OptVariable where
  name : String
  initial : ℚ
  lo : ℚ
  hi : ℚ
  delta : ℚ
deriving DecidableEq, Repr

/-- All optimization variables declared with `{initial, bounds, delta}`
in the shipped `optimize.yaml` (the `atom_Al` section; entries such as
`charge: 2.` are plain parameters, not variables, and comments are not
configuration). -/
def optimizeVariables : List OptVariable :=
  [⟨"atom_Al.3s.pseudo.cutoff", 1.2, 0.8, 2.3, 0.1⟩,
   ⟨"atom_Al.3s.basis.soft-confinement.V0", 0, 0, 1000, 50⟩,
   ⟨"atom_Al.3s.basis.soft-confinement.ri", -0.8, -0.95, -0.5, 0.08⟩,
   ⟨"atom_Al.3s.basis.zeta1", 2.4, 1, 5.5, 0.5⟩,
   ⟨"atom_Al.3s.basis.zeta2", 1.6, 1, 5.5, 0.5⟩,
   ⟨"atom_Al.3p.pseudo.cutoff", 1.1, 0.8, 2.3, 0.1⟩,
   ⟨"atom_Al.3p.basis.soft-confinement.V0", 0, 0, 1000, 50⟩,
   ⟨"atom_Al.3p.basis.soft-confinement.ri", -0.8, -0.95, -0.5, 0.08⟩,
   ⟨"atom_Al.3p.basis.zeta1", 2.4, 1, 5.5, 0.25⟩,
   ⟨"atom_Al.3p.basis.zeta2", 2.0, 1, 5.5, 0.25⟩,
   ⟨"atom_Al.3d.pseudo.cutoff", 1.15, 0.8, 2.3, 0.1⟩,
   ⟨"atom_Al.3d.basis.charge-confinement.charge", 0, 0, 5, 0.5⟩,
   ⟨"atom_Al.3d.basis.charge-confinement.yukawa", 0, 0, 3, 0.5⟩,
   ⟨"atom_Al.3d.basis.charge-confinement.width", 0.0053, 0, 0.5, 0.05⟩,
   ⟨"atom_Al.3d.basis.soft-confinement.V0", 0, 0, 1000, 50⟩,
   ⟨"atom_Al.3d.basis.soft-confinement.ri", -0.8, -0.95, -0.5, 0.08⟩,
   ⟨"atom_Al.3d.basis.zeta1", 2.4, 1, 5.5, 0.25⟩,
   ⟨"atom_Al.4f.pseudo.cutoff", 1.2, 0.8, 2.3, 0.1⟩]

/-- Modelled from the spec: the compiled kernel sources
(`_matrix_k.pyx`, `_bloch.pyx`, ...) are not part of the inspected
tree.  The spec describes their input as "a custom compressed sparse
row-like storage" of a real-space sparse matrix: per-row lists of
(supercell column index, value) entries, with `no` orbitals per unit
cell and `nsc` supercells, so the column of an entry `c` addresses unit-cell
orbital `c % no` in supercell `c / no`. -/
structure SparseCSR (R : Type) where
  no : ℕ
  nsc : ℕ
  rows : List (List (ℕ × R))

/-- A sparse storage is well formed when every column index lies inside
the `no * nsc` supercell-resolved columns. -/
def SparseCSR.wellFormed {R : Type} (m : SparseCSR R) : Bool :=
  m.rows.all (fun row => row.all (fun e => e.1 < m.no * m.nsc))

/-- Modelled from the spec: the kernel loop over one CSR row, "repeated
sparse-matrix-shaped accumulation with complex phase weighting" — each
nonzero entry adds `phases (c / no) * value` into output column
`c % no` of the accumulator. -/
def accumRow {R : Type} [AddCommMonoid R] [Mul R] (phases : ℕ → R)
    (no : ℕ) : List (ℕ × R) → (ℕ → R) → (ℕ → R)
  | [], acc => acc
  | e :: es, acc =>
    accumRow phases no es
      (Function.update acc (e.1 % no)
        (acc (e.1 % no) + phases (e.1 / no) * e.2))

/-- Modelled from the spec: the k-space matrix construction kernel —
every row of the real-space sparse matrix is folded into a dense output
row (a function from unit-cell column to value), starting from zero. -/
def matrix_k {R : Type} [AddCommMonoid R] [Mul R] (phases : ℕ → R)
    (m : SparseCSR R) : List (ℕ → R) :=
  m.rows.map (fun row => accumRow phases m.no row (fun _ => 0))

/-- The reference value of one output entry: the sum over the CSR
entries that address unit-cell column `j`, each multiplied by the
lattice phase factor of its supercell. -/
def refEntry {R : Type} [AddCommMonoid R] [Mul R] (phases : ℕ → R)
    (no : ℕ) (entries : List (ℕ × R)) (j : ℕ) : R :=
  (entries.map
    (fun e => if e.1 % no = j then phases (e.1 / no) * e.2 else 0)).sum

/-- Modelled from the spec: a component of the system is "an independent
mathematical transform on an already-loaded sparse matrix
representation", with "no failure-recovery logic beyond input
validation" — a validation check plus a pure computation. -/
structure Kernel (S In Out Err : Type) where
  validate : In → Option Err
  compute : In → Out

/-- Modelled from the spec: one invocation ("invoked once per request")
of a kernel against caller-visible state `s`: validation either rejects
the input before any computation, or the pure computation runs; the
state is threaded explicitly so that reads and writes would be
observable. -/
def Kernel.run {S In Out Err : Type} (k : Kernel S In Out Err) (s : S)
    (x : In) : S × Except Err Out :=
  match k.validate x with
  | some e => (s, Except.error e)
  | none => (s, Except.ok (k.compute x))

/-- Modelled from the spec: a whole service of requests processed
sequentially, each request running in the state the previous one left
behind. -/
def runAll {S In Out Err : Type} (k : Kernel S In Out Err) (s : S) :
    List In → S × List (Except Err Out)
  | [] => (s, [])
  | x :: xs =>
    let r := k.run s x
    let rest := runAll k r.1 xs
    (rest.1, r.2 :: rest.2)

/-- The validation error of the k-space matrix kernel. -/
def csrValidationError : String := "column index exceeds supercell bounds"

/-- Modelled from the spec: the k-space matrix construction kernel as an
invocable component — validation checks the CSR column bounds,
computation is `matrix_k` with the lattice phase factors of the
requested k-point (instantiated at `ℂ` in the theorems below, matching
the complex dtype of the compiled kernels). -/
def matrixKKernel (S : Type) {R : Type} [AddCommMonoid R] [Mul R]
    (phases : ℕ → R) : Kernel S (SparseCSR R) (List (ℕ → R)) String :=
  { validate := fun m => if m.wellFormed then none else some csrValidationError
    compute := fun m => matrix_k phases m }

instance (v : PyVersion) : Decidable (satisfiesBuildNumpy v) := by
  unfold satisfiesBuildNumpy; infer_instance

instance (v : PyVersion) : Decidable (satisfiesRuntimeNumpy v) := by
  unfold satisfiesRuntimeNumpy; infer_instance

/-- The property claimed of the static-analysis allow-list: every
allow-listed compiled entry point is one of the extension modules the
given build configuration builds, and lies directly under `sisl` or
`sisl.physics`. -/
def allowListOnlyRootAndPhysicsModules : Prop :=
  ∀ m ∈ extensionPkgAllowList,
    m ∈ builtModulePaths ∧ moduleParent m ∈ [["sisl"], ["sisl", "physics"]]

instance : Decidable allowListOnlyRootAndPhysicsModules := by
  unfold allowListOnlyRootAndPhysicsModules; infer_instance

/-- C1: for the physics build configuration, the set of Cython libraries
built and installed into the physics package is exactly the nine
Bloch-unfolding and k-space matrix (and k-derivative) kernels. -/
theorem physics_build_kernel_set :
    (cythonBuilds.filter
        (fun b => b.destination = [SKBUILD_PROJECT_NAME, "physics"])).map
      CythonBuild.library =
    ["_bloch", "_phase", "_matrix_utils", "_matrix_k", "_matrix_dk",
     "_matrix_ddk", "_matrix_phase", "_matrix_phase_sc", "_matrix_phase3"] := by
  decide

/-- Unfolding of the reference sum over one more CSR entry. -/
theorem refEntry_cons {R : Type} [AddCommMonoid R] [Mul R] (phases : ℕ → R)
    (no : ℕ) (e : ℕ × R) (es : List (ℕ × R)) (j : ℕ) :
    refEntry phases no (e :: es) j =
      (if e.1 % no = j then phases (e.1 / no) * e.2 else 0) +
        refEntry phases no es j := by
  simp [refEntry]

/-- The accumulation loop over one row computes, at every output column,
the starting accumulator value plus the phase-weighted reference sum. -/
theorem accumRow_eq_add_refEntry {R : Type} [AddCommMonoid R] [Mul R]
    (phases : ℕ → R) (no : ℕ) (entries : List (ℕ × R)) (acc : ℕ → R)
    (j : ℕ) :
    accumRow phases no entries acc j = acc j + refEntry phases no entries j := by
  induction entries generalizing acc with
  | nil => simp [accumRow, refEntry]
  | cons e es ih =>
    rw [accumRow, ih, refEntry_cons]
    by_cases h : e.1 % no = j
    · rw [if_pos h, ← h, Function.update_same, add_assoc]
    · rw [if_neg h, Function.update_noteq (fun hj => h hj.symm), zero_add]

/-- Row-indexed form of the loop-equals-sum lemma, over the mapped row
list. -/
theorem mapAccum_getD {R : Type} [AddCommMonoid R] [Mul R] (phases : ℕ → R)
    (no : ℕ) (rows : List (List (ℕ × R))) (i j : ℕ) :
    ((rows.map (fun row => accumRow phases no row (fun _ => 0))).getD i
        (fun _ => 0)) j =
      refEntry phases no (rows.getD i []) j := by
  induction rows generalizing i with
  | nil => simp [refEntry]
  | cons r rs ih =>
    cases i with
    | zero =>
      simp only [List.map_cons, List.getD_cons_zero]
      simp [accumRow_eq_add_refEntry]
    | succ n =>
      simpa only [List.map_cons, List.getD_cons_succ] using ih n

/-- C2: for every input sparse matrix, every set of lattice phase
factors and every output position, the kernel accumulation loop output
equals the reference sum over the CSR entries of that row, each
multiplied by its complex lattice phase factor (rows and columns past
the end read as zero on both sides). -/
theorem matrix_k_eq_phase_weighted_csr_sum (phases : ℕ → ℂ)
    (m : SparseCSR ℂ) (i j : ℕ) :
    ((matrix_k phases m).getD i (fun _ => 0)) j =
      refEntry phases m.no (m.rows.getD i []) j :=
  mapAccum_getD phases m.no m.rows i j

/-- C3: the k-space matrix kernel is stateless and deterministic — two
invocations on the same sparse matrix and the same k-point phases agree
regardless of the ambient state they are invoked in, and every
invocation returns the state it was given. -/
theorem matrixK_kernel_stateless_deterministic (phases : ℕ → ℂ)
    {S : Type} (s t : S) (m : SparseCSR ℂ) :
    ((matrixKKernel S phases).run s m).2 =
      ((matrixKKernel S phases).run t m).2 ∧
    ((matrixKKernel S phases).run s m).1 = s := by
  unfold matrixKKernel Kernel.run
  by_cases h : m.wellFormed <;> simp [h]

/-- C4: the only failure behaviour of the k-space matrix kernel is input
validation — an invocation either passes validation and returns the
computed matrices, or fails during validation with the validation error,
and in both cases the caller-visible state is returned unchanged. -/
theorem matrixK_kernel_failure_only_validation (phases : ℕ → ℂ)
    {S : Type} (s : S) (m : SparseCSR ℂ) :
    (matrixKKernel S phases).run s m =
      (s, if m.wellFormed then Except.ok (matrix_k phases m)
          else Except.error csrValidationError) := by
  unfold matrixKKernel Kernel.run
  by_cases h : m.wellFormed <;> simp [h]

/-- Any single kernel invocation hands back the state it was given. -/
theorem kernel_run_fst {S In Out Err : Type} (k : Kernel S In Out Err)
    (s : S) (x : In) : (k.run s x).1 = s := by
  unfold Kernel.run
  cases k.validate x <;> rfl

/-- C5: in the modelled architecture there is nothing to schedule, no
protocol state, no shared store — processing any sequence of requests
sequentially leaves the state exactly as it started and produces for
each request the same response a lone invocation in the initial state
would, so responses are independent of any interleaving; moreover the
test environment of the repository pins both worker-count variables to
one process. -/
theorem kernel_requests_no_coordination_no_store
    {S In Out Err : Type} (k : Kernel S In Out Err) (s : S)
    (xs : List In) :
    runAll k s xs = (s, xs.map (fun x => (k.run s x).2)) ∧
    ("SISL_NUM_PROCS", "1") ∈ toxTestEnv ∧
    ("SISL_VIZ_NUM_PROCS", "1") ∈ toxTestEnv := by
  refine ⟨?_, by decide, by decide⟩
  induction xs with
  | nil => rfl
  | cons x xs ih =>
    simp only [runAll, kernel_run_fst, ih, List.map_cons]

/-- C6: the subsystems the design document declares out of scope are
present in the repository — the build configuration descends into the
file I/O, geometry and core lattice subdirectories, the shipped
minimizer configuration declares its pseudopotential/basis-set
optimization variables, and the project declares all five
visualization/plotting optional-dependency groups. -/
theorem out_of_scope_subsystems_present :
    "io" ∈ cmakeSubdirectories ∧
    "geom" ∈ cmakeSubdirectories ∧
    "_core" ∈ cmakeSubdirectories ∧
    optimizeVariables.length = 18 ∧
    (["viz", "viz-plotly", "viz-matplotlib", "viz-blender", "viz-ase"].all
      (fun g => (optionalDependencyGroups.map Prod.fst).contains g)) = true := by
  refine ⟨by decide, by decide, by decide, rfl, by decide⟩

/-- C7 counterexample: the pylint allow-list names
`sisl._core._lattice`, which is not an extension module built by the
given build configuration and whose parent package is `sisl._core`,
neither `sisl` nor `sisl.physics`. -/
theorem allowlist_claim_counterexample : ¬ allowListOnlyRootAndPhysicsModules := by
  intro h
  exact absurd (h ["sisl", "_core", "_lattice"] (by decide)).1 (by decide)

/-- C7 amended: every accelerated physics kernel source is built as a
Cython library; the allow-list entries built by the given build
configuration are exactly the six extension modules directly under
`sisl` and `sisl.physics`, and the remaining allow-list entries are the
two subpackage modules `sisl._core._lattice` and
`sisl.io.siesta._siesta` (built by the `_core` and `io` subdirectory
configurations) together with the external packages `numpy` and
`scipy`. -/
theorem allowlist_modules_amended :
    (physicsKernelSources.all
      (fun n => (cythonBuilds.map CythonBuild.library).contains n)) = true ∧
    extensionPkgAllowList.filter (fun m => builtModulePaths.contains m) =
      [["sisl", "_math_small"], ["sisl", "_indices"],
       ["sisl", "physics", "_bloch"], ["sisl", "physics", "_matrix_k"],
       ["sisl", "physics", "_matrix_dk"], ["sisl", "physics", "_matrix_ddk"]] ∧
    ((extensionPkgAllowList.filter (fun m => builtModulePaths.contains m)).all
      (fun m => [["sisl"], ["sisl", "physics"]].contains (moduleParent m))) =
      true ∧
    extensionPkgAllowList.filter (fun m => !builtModulePaths.contains m) =
      [["sisl", "_core", "_lattice"], ["sisl", "io", "siesta", "_siesta"],
       ["numpy"], ["scipy"]] := by
  refine ⟨by decide, by decide, by decide, by decide⟩

/-- C8: every optimization variable of the shipped minimizer
configuration has its initial point inside its search interval and a
positive step size that fits within the interval. -/
theorem optimize_variables_within_bounds :
    ∀ v ∈ optimizeVariables,
      v.lo ≤ v.initial ∧ v.initial ≤ v.hi ∧
      0 < v.delta ∧ v.delta ≤ v.hi - v.lo := by
  intro v hv
  fin_cases hv <;> refine ⟨by norm_num, by norm_num, by norm_num, by norm_num⟩

/-- C8 witness: the bounds check holds at the first declared variable,
the 3s pseudopotential cutoff. -/
theorem optimize_variables_within_bounds_witness :
    (⟨"atom_Al.3s.pseudo.cutoff", 1.2, 0.8, 2.3, 0.1⟩ : OptVariable).lo ≤
        (⟨"atom_Al.3s.pseudo.cutoff", 1.2, 0.8, 2.3, 0.1⟩ : OptVariable).initial ∧
      (1.2 : ℚ) ≤ 2.3 ∧ (0 : ℚ) < 0.1 ∧ (0.1 : ℚ) ≤ 2.3 - 0.8 :=
  optimize_variables_within_bounds
    ⟨"atom_Al.3s.pseudo.cutoff", 1.2, 0.8, 2.3, 0.1⟩ (List.mem_cons_self _ _)

/-- C9: the build-time numpy requirement is strictly stronger than the
run-time numpy requirement — every version at least `2.0.0rc1` is also
at least `1.20`, while `1.20` itself satisfies the run-time constraint
but not the build constraint. -/
theorem numpy_build_requirement_stronger :
    (∀ v : PyVersion, satisfiesBuildNumpy v → satisfiesRuntimeNumpy v) ∧
    satisfiesRuntimeNumpy numpyRuntimeMinimum ∧
    ¬ satisfiesBuildNumpy numpyRuntimeMinimum := by
  refine ⟨?_, by decide, by decide⟩
  intro v h
  unfold satisfiesBuildNumpy satisfiesRuntimeNumpy verLe numpyBuildMinimum
    numpyRuntimeMinimum at *
  simp only [PyVersion.rank, PyVersion.rcNum] at *
  omega

/-- C9 witness: numpy 2.1.0 satisfies the build constraint, and the
implication instantiated there yields the run-time constraint. -/
theorem numpy_build_requirement_stronger_witness :
    satisfiesBuildNumpy ⟨2, 1, 0, none⟩ ∧ satisfiesRuntimeNumpy ⟨2, 1, 0, none⟩ :=
  ⟨by decide, numpy_build_requirement_stronger.1 ⟨2, 1, 0, none⟩ (by decide)⟩

/-- C10: each compiled extension module of the allow-list that the given
build configuration is responsible for — the four physics kernels and
the two package-root helpers — is both allow-listed and built as a
Cython library installed at the directory matching its dotted import
path: physics kernels to `sisl/physics`, the others to the package
root. -/
theorem allowlisted_modules_built_and_installed :
    ([["sisl", "physics", "_bloch"], ["sisl", "physics", "_matrix_k"],
      ["sisl", "physics", "_matrix_dk"], ["sisl", "physics", "_matrix_ddk"],
      ["sisl", "_indices"], ["sisl", "_math_small"]].all
      (fun m => extensionPkgAllowList.contains m &&
        builtModulePaths.contains m)) = true ∧
    (⟨"_bloch.pyx", "_bloch", "_bloch_C", ["sisl", "physics"]⟩ : CythonBuild)
      ∈ cythonBuilds ∧
    (⟨"_matrix_k.pyx", "_matrix_k", "_matrix_k_C", ["sisl", "physics"]⟩ :
      CythonBuild) ∈ cythonBuilds ∧
    (⟨"_matrix_dk.pyx", "_matrix_dk", "_matrix_dk_C", ["sisl", "physics"]⟩ :
      CythonBuild) ∈ cythonBuilds ∧
    (⟨"_matrix_ddk.pyx", "_matrix_ddk", "_matrix_ddk_C", ["sisl", "physics"]⟩ :
      CythonBuild) ∈ cythonBuilds ∧
    (⟨"_indices.pyx", "_indices", "_indices_C", ["sisl"]⟩ : CythonBuild)
      ∈ cythonBuilds ∧
    (⟨"_math_small.pyx", "_math_small", "_math_small_C", ["sisl"]⟩ :
      CythonBuild) ∈ cythonBuilds := by
  refine ⟨by decide, by decide, by decide, by decide, by decide, by decide,
    by decide⟩
